import Mathlib

/-!
# Verification of the ai-skills regeneration pipeline

Shallow embedding of the Python backend under `src/backend/python/`:
`skill_validator.py`, `source_fetcher.py`, `skill_normalizer.py`,
`llm_client.py` and the orchestrator `main.py`.

Python dicts holding the skill record are embedded as a `Skill` structure
whose fields are `Option`-valued (`none` = key absent).  Values that the
code inspects with `isinstance` checks are embedded as small sum types
(`PyItem`, `PyListVal`) so that the validator's type checks can be stated
faithfully.  Collaborators doing I/O (HTTP, the model endpoint, the file
system, git) are oracles: their outcomes are inputs of the embedded
functions, while every decision made on those outcomes is translated from
the source.
-/

set_option maxRecDepth 4096

/-- A value appearing as an element of one of the skill dict's list
sections.  `str` is a Python string; `other` is any non-string JSON value
(the numeric tag only keeps distinct non-string values distinguishable). -/
inductive PyItem where
  | str (s : String)
  | other (tag : Nat)
deriving DecidableEq, Repr

/-- A value stored under a list-section key (or under `sources`).  The code
checks `isinstance(value, list)`; `nonList` is a present non-list value,
carrying its Python truthiness. -/
inductive PyListVal where
  | list (items : List PyItem)
  | nonList (truthy : Bool)
deriving DecidableEq, Repr

/-- The skill record dict.  `none` models an absent key.  The metadata
fields are modelled as strings: the schema pre-check (`validate_json_schema`)
guarantees `name`/`version`/`purpose` are strings, and `last_updated` is
written by the normalizer itself. -/
structure Skill where
  name : Option String := none
  version : Option String := none
  purpose : Option String := none
  last_updated : Option String := none
  sources : Option PyListVal := none
  principles : Option PyListVal := none
  rules : Option PyListVal := none
  patterns : Option PyListVal := none
  anti_patterns : Option PyListVal := none
  security : Option PyListVal := none
  performance : Option PyListVal := none
  tooling : Option PyListVal := none
  domains : Option (List String) := none
  version_notes : Option String := none
deriving DecidableEq, Repr

/-! ## Regex `^\d{4}-\d{2}-\d{2}T\d{2}:\d{2}:\d{2}Z$` (skill_validator.py:101)

`re.match` anchors at the start; `$` matches at the end of the string or
just before one trailing newline.  `\d` is embedded as an ASCII digit
(every string this program produces or checks here is ASCII). -/

/-- The character shape of the pattern body `\d{4}-\d{2}-\d{2}T\d{2}:\d{2}:\d{2}Z`. -/
def isoShape (l : List Char) : Bool :=
  match l with
  | [y1, y2, y3, y4, h1, m1, m2, h2, d1, d2, t, hh1, hh2, c1, mm1, mm2, c2, s1, s2, z] =>
      y1.isDigit && y2.isDigit && y3.isDigit && y4.isDigit && h1 = '-' &&
      m1.isDigit && m2.isDigit && h2 = '-' && d1.isDigit && d2.isDigit &&
      t = 'T' && hh1.isDigit && hh2.isDigit && c1 = ':' && mm1.isDigit &&
      mm2.isDigit && c2 = ':' && s1.isDigit && s2.isDigit && z = 'Z'
  | _ => false

/-- `re.match(r'^\d{4}-\d{2}-\d{2}T\d{2}:\d{2}:\d{2}Z$', s)` as a Bool:
the whole string matches, or everything up to a single trailing newline
does (Python `$` semantics). -/
def reMatchIso (s : String) : Bool :=
  isoShape s.data ||
    (s.data.getLast? = some '\n' && isoShape s.data.dropLast)

/-! ## SkillValidator (skill_validator.py)

`validate_skill` runs `_validate_metadata`, `_validate_sections` and
`_validate_quality` in order, each appending to `self.errors` /
`self.warnings`; it returns the 3-tuple
`(len(self.errors) == 0, self.errors, self.warnings)`.
Each `_validate_*` method is embedded as a function returning the error
and warning lists it appends, with the fixed loops over section names
unrolled. -/

/-- `VAGUE_PATTERNS` (skill_validator.py:13-16). -/
def VAGUE_PATTERNS : List String :=
  ["should", "try", "might", "possibly", "perhaps",
   "seems", "appears", "may", "can", "could"]

/-- Python truthiness of an optional string value: absent or empty is falsy. -/
def pyFalsyStrOpt : Option String → Bool
  | none => true
  | some s => s = ""

/-- Python truthiness of an optional list-or-other value. -/
def pyFalsyListOpt : Option PyListVal → Bool
  | none => true
  | some (.list l) => l.isEmpty
  | some (.nonList t) => !t

/-- Is `needle` a prefix of `hay`? -/
def listPre : List Char → List Char → Bool
  | [], _ => true
  | _ :: _, [] => false
  | a :: as, b :: bs => a = b && listPre as bs

/-- Is `needle` a contiguous substring of `hay`?  (Python `in` on str.) -/
def hasSub (needle : List Char) : List Char → Bool
  | [] => listPre needle []
  | c :: rest => listPre needle (c :: rest) || hasSub needle rest

/-- `f' {vague} ' in f' {item_lower} '` (skill_validator.py:161). -/
def vagueHit (vague itemLower : String) : Bool :=
  hasSub (" " ++ vague ++ " ").data (" " ++ itemLower ++ " ").data

/-- Python `s.startswith(pre)`. -/
def pyStartsWith (s pre : String) : Bool :=
  listPre pre.data s.data

/-- `_validate_metadata` error list (skill_validator.py:73-113). -/
def metadata_errors (s : Skill) : List String :=
  -- required-fields loop: `if field not in skill or not skill[field]`
  (if pyFalsyStrOpt s.name then ["Missing or empty field: name"] else []) ++
  (if pyFalsyStrOpt s.version then ["Missing or empty field: version"] else []) ++
  (if pyFalsyStrOpt s.purpose then ["Missing or empty field: purpose"] else []) ++
  (if pyFalsyStrOpt s.last_updated then ["Missing or empty field: last_updated"] else []) ++
  (if pyFalsyListOpt s.sources then ["Missing or empty field: sources"] else []) ++
  -- `name = skill.get('name', ''); if name and len(name) > 50`
  (let name := s.name.getD ""
   if name ≠ "" ∧ name.length > 50 then
     ["Name too long: " ++ toString name.length ++ " chars (max 50)"] else []) ++
  (let version := s.version.getD ""
   if version ≠ "" ∧ version.length > 20 then
     ["Version too long: " ++ toString version.length ++ " chars (max 20)"] else []) ++
  (let purpose := s.purpose.getD ""
   if purpose ≠ "" then
     (if purpose.length < 50 then
        ["Purpose too short: " ++ toString purpose.length ++ " chars (min 50)"]
      else if purpose.length > 150 then
        ["Purpose too long: " ++ toString purpose.length ++ " chars (max 150)"]
      else [])
   else []) ++
  (let lu := s.last_updated.getD ""
   if lu ≠ "" ∧ ¬ reMatchIso lu then ["Invalid ISO date: " ++ lu] else []) ++
  -- `sources = skill.get('sources', [])`
  (match s.sources.getD (.list []) with
   | .nonList _ => ["sources must be a list"]
   | .list l => if l.isEmpty then ["At least one source required"] else [])

/-- `_validate_metadata` warning list: per-source URL checks.
(The message for a non-string source interpolates the Python value,
which the embedding does not carry; no claim depends on it.) -/
def metadata_warnings (s : Skill) : List String :=
  match s.sources.getD (.list []) with
  | .nonList _ => []
  | .list l =>
      if l.isEmpty then []
      else l.foldr (fun it acc =>
        (match it with
         | .str src => if pyStartsWith src "http" then [] else ["Invalid source URL: " ++ src]
         | .other _ => ["Invalid source URL: <non-string>"]) ++ acc) []

/-- One section's presence/type/cardinality check (skill_validator.py:119-134). -/
def section_errors (nm : String) (mn mx : Nat) : Option PyListVal → List String
  | none => ["Missing section: " ++ nm]
  | some (.nonList _) => [nm ++ " must be a list"]
  | some (.list items) =>
      if items.length < mn then
        [nm ++ ": too few items (" ++ toString items.length ++ ", min " ++ toString mn ++ ")"]
      else if items.length > mx then
        [nm ++ ": too many items (" ++ toString items.length ++ ", max " ++ toString mx ++ ")"]
      else []

/-- `_validate_sections`: the loop over `required_sections` with
`SECTION_LIMITS` unrolled (`principles` is not in `required_sections`). -/
def sections_errors (s : Skill) : List String :=
  section_errors "rules" 3 10 s.rules ++
  section_errors "patterns" 3 10 s.patterns ++
  section_errors "anti_patterns" 2 5 s.anti_patterns ++
  section_errors "security" 1 5 s.security ++
  section_errors "performance" 1 5 s.performance ++
  section_errors "tooling" 1 5 s.tooling

/-- `skill.get(section, [])` followed by the `isinstance(items, list)` guard:
the items contributed by one section to `all_items`. -/
def sectionItems : Option PyListVal → List PyItem
  | some (.list l) => l
  | _ => []

/-- Per-item errors of `_validate_quality`: only non-string items are errors
(skill_validator.py:148-149).  The Python message interpolates the value. -/
def item_errors (nm : String) (items : List PyItem) : List String :=
  items.foldr (fun it acc =>
    (match it with
     | .str _ => []
     | .other _ => [nm ++ ": non-string item"]) ++ acc) []

/-- The first vague word found in the item, per `VAGUE_PATTERNS` order
(the Python loop breaks after the first hit). -/
def firstVague (itemLower : String) : Option String :=
  VAGUE_PATTERNS.find? (fun w => vagueHit w itemLower)

/-- Per-item warnings of `_validate_quality`: length bounds then vague
language (skill_validator.py:152-162). -/
def item_warnings (nm : String) (items : List PyItem) : List String :=
  items.foldr (fun it acc =>
    (match it with
     | .other _ => []
     | .str s =>
         (if s.length < 15 then
            [nm ++ ": item too short (" ++ toString s.length ++ " chars): \"" ++ s ++ "\""]
          else if s.length > 150 then
            [nm ++ ": item too long (" ++ toString s.length ++ " chars): \"" ++ s.take 40 ++ "...\""]
          else []) ++
         (match firstVague s.toLower with
          | some w => [nm ++ ": vague language \"" ++ w ++ "\" in: \"" ++ s.take 40 ++ "...\""]
          | none => [])) ++ acc) []

/-- `str(item)[:40]` used in the duplicate-warning message (for a
non-string Python value the representation is not carried). -/
def itemTake40 : PyItem → String
  | .str s => s.take 40
  | .other _ => "<non-string>"

/-- Duplicate scan of one section (skill_validator.py:166-173): `seen` is
the set of items already visited. -/
def dup_scan (nm : String) (seen : List PyItem) : List PyItem → List String
  | [] => []
  | it :: rest =>
      (if it ∈ seen then [nm ++ ": duplicate item: \"" ++ itemTake40 it ++ "...\""] else []) ++
      dup_scan nm (it :: seen) rest

/-- All quality errors: `all_items` concatenates the six sections in order. -/
def quality_errors (s : Skill) : List String :=
  item_errors "rules" (sectionItems s.rules) ++
  item_errors "patterns" (sectionItems s.patterns) ++
  item_errors "anti_patterns" (sectionItems s.anti_patterns) ++
  item_errors "security" (sectionItems s.security) ++
  item_errors "performance" (sectionItems s.performance) ++
  item_errors "tooling" (sectionItems s.tooling)

/-- All quality warnings: the per-item pass over `all_items`, then the
duplicate scans, in source order. -/
def quality_warnings (s : Skill) : List String :=
  (item_warnings "rules" (sectionItems s.rules) ++
   item_warnings "patterns" (sectionItems s.patterns) ++
   item_warnings "anti_patterns" (sectionItems s.anti_patterns) ++
   item_warnings "security" (sectionItems s.security) ++
   item_warnings "performance" (sectionItems s.performance) ++
   item_warnings "tooling" (sectionItems s.tooling)) ++
  (dup_scan "rules" [] (sectionItems s.rules) ++
   dup_scan "patterns" [] (sectionItems s.patterns) ++
   dup_scan "anti_patterns" [] (sectionItems s.anti_patterns) ++
   dup_scan "security" [] (sectionItems s.security) ++
   dup_scan "performance" [] (sectionItems s.performance) ++
   dup_scan "tooling" [] (sectionItems s.tooling))

/-- `SkillValidator.validate_skill` (skill_validator.py:44-71): returns the
3-tuple `(len(self.errors) == 0, self.errors, self.warnings)`. -/
def validate_skill (s : Skill) : Bool × List String × List String :=
  let errors := metadata_errors s ++ sections_errors s ++ quality_errors s
  let warnings := metadata_warnings s ++ quality_warnings s
  (errors.isEmpty, errors, warnings)

example :
    (validate_skill { name := some "x" }).1 = false := by decide

/-! ## SourceFetcher snapshot state (source_fetcher.py:177-256)

The snapshot directory is a store mapping a skill name to the text of its
snapshot file (`none` = file absent).  Each operation is state-passing:
it returns its result together with the store after the call, so that
frame effects are part of the embedding.  I/O errors (the `except IOError`
branches) are outside this model: the store is the happy file system. -/

/-- The snapshot directory: `snapshots_dir / f"{skill_name}.txt"`. -/
def SnapshotStore := String → Option String

/-- `SourceFetcher.load_snapshot` (source_fetcher.py:208-225): reads the
file, leaves the store unchanged. -/
def load_snapshot (st : SnapshotStore) (skill_name : String) :
    Option String × SnapshotStore :=
  (st skill_name, st)

/-- `SourceFetcher.save_snapshot` (source_fetcher.py:188-206): whole-file
overwrite of the one snapshot, returns success. -/
def save_snapshot (st : SnapshotStore) (skill_name content : String) :
    Bool × SnapshotStore :=
  (true, fun k => if k = skill_name then some content else st k)

/-- `SourceFetcher.compute_diff` (source_fetcher.py:227-256).
`if not previous:` is true both when the snapshot file is absent
(`load_snapshot` returned `None`) and when it holds the empty string. -/
def compute_diff (st : SnapshotStore) (skill_name content : String) :
    Option String × SnapshotStore :=
  match load_snapshot st skill_name with
  | (none, st') => (some content, st')
  | (some previous, st') =>
      if previous = "" then (some content, st')
      else if content = previous then (none, st')
      else (some content, st')

/-! ## `datetime.utcnow().strftime("%Y-%m-%dT%H:%M:%SZ")` (skill_normalizer.py:138) -/

/-- A UTC wall-clock instant as `datetime.utcnow()` yields it. -/
structure UTCTime where
  year : Nat
  month : Nat
  day : Nat
  hour : Nat
  minute : Nat
  second : Nat
deriving DecidableEq, Repr

/-- The ranges `datetime` itself guarantees (restricted to four-digit
years, where `%Y` renders exactly four digits on every platform). -/
def UTCTime.wf (t : UTCTime) : Prop :=
  1000 ≤ t.year ∧ t.year ≤ 9999 ∧ 1 ≤ t.month ∧ t.month ≤ 12 ∧
  1 ≤ t.day ∧ t.day ≤ 31 ∧ t.hour ≤ 23 ∧ t.minute ≤ 59 ∧ t.second ≤ 59

instance (t : UTCTime) : Decidable t.wf := by
  unfold UTCTime.wf; infer_instance

/-- One decimal digit of `n` (`d` counts positions from the right, 0-based). -/
def digAt (n d : Nat) : Char := Nat.digitChar (n / 10 ^ d % 10)

/-- `strftime("%Y-%m-%dT%H:%M:%SZ")`: zero-padded fields, second
precision, no fractional seconds.  Character-exact for `UTCTime.wf`
instants. -/
def format_utc (t : UTCTime) : String :=
  String.mk
    [digAt t.year 3, digAt t.year 2, digAt t.year 1, digAt t.year 0, '-',
     digAt t.month 1, digAt t.month 0, '-', digAt t.day 1, digAt t.day 0, 'T',
     digAt t.hour 1, digAt t.hour 0, ':', digAt t.minute 1, digAt t.minute 0, ':',
     digAt t.second 1, digAt t.second 0, 'Z']

/-! ## SkillNormalizer (skill_normalizer.py) -/

/-- `SkillValidator.validate_json_schema` (skill_validator.py:175-206):
structural pre-check of the parsed model output.  (The `isinstance(data,
dict)` guard is satisfied by construction of `Skill`.) -/
def validate_json_schema (data : Skill) : Bool × List String :=
  let listField := fun (nm : String) (v : Option PyListVal) =>
    match v with
    | none => ["Missing field: " ++ nm]
    | some (.nonList _) => [nm ++ " must be a list"]
    | some (.list _) => []
  let strField := fun (nm : String) (v : Option String) =>
    match v with
    | none => ["Missing field: " ++ nm]
    | some _ => []
  let errors :=
    listField "rules" data.rules ++ listField "patterns" data.patterns ++
    listField "anti_patterns" data.anti_patterns ++ listField "security" data.security ++
    listField "performance" data.performance ++ listField "tooling" data.tooling ++
    strField "name" data.name ++ strField "version" data.version ++
    strField "purpose" data.purpose
  (errors.isEmpty, errors)

/-- Both-ends strip of the characters `.,;` (`part.strip().strip(".,;")`;
the first `strip()` is a no-op on whitespace-split tokens). -/
def stripPunct (s : String) : String :=
  let punct := fun c => c = '.' || c = ',' || c = ';'
  String.mk (((s.data.dropWhile punct).reverse.dropWhile punct).reverse)

/-- Python `str.split()` with no separator: split on runs of whitespace,
dropping empty tokens.  (ASCII whitespace; the extra Unicode space
characters Python also splits on do not occur in this pipeline.) -/
def pySplitWs (s : String) : List String :=
  go [] s.data
where
  go (acc : List Char) : List Char → List String
    | [] => if acc.isEmpty then [] else [String.mk acc.reverse]
    | c :: rest =>
        if c.isWhitespace then
          (if acc.isEmpty then [] else [String.mk acc.reverse]) ++ go [] rest
        else go (c :: acc) rest

/-- The crude URL extraction of skill_normalizer.py:144-149: whitespace
tokens beginning with `http://` or `https://`, trailing punctuation
trimmed. -/
def extract_urls (content : String) : List String :=
  ((pySplitWs content).filter
    (fun part => pyStartsWith part "http://" || pyStartsWith part "https://")).map stripPunct

/-- The fixed suffix appended to a too-short purpose (skill_normalizer.py:159). -/
def purposeSuffix (skill_name : String) : String :=
  " This document summarizes actionable best practices, patterns, and tooling for "
    ++ skill_name ++ " to help maintainers and engineers follow consistent approaches."

/-- The post-processing block of `SkillNormalizer.normalize`
(skill_normalizer.py:131-163): overwrite `version`, stamp `last_updated`,
choose `sources` (caller-supplied list if non-empty, else the crude URL
extraction from the possibly-truncated content), and pad a short
`purpose`. -/
def normalize_post (response_json : Skill) (now : UTCTime)
    (content skill_name skill_version : String)
    (sources : Option (List String)) : Skill :=
  let chosenSources :=
    match sources with
    | some l => if l.isEmpty then extract_urls content else l
    | none => extract_urls content
  let normalized :=
    { response_json with
      version := some skill_version,
      last_updated := some (format_utc now),
      sources := some (.list (chosenSources.map PyItem.str)) }
  let purpose := normalized.purpose.getD ""
  let purpose :=
    if purpose = "" then
      "Normalized best practices and guidelines for " ++ skill_name ++ "."
    else purpose
  let purpose :=
    if purpose.length < 50 then (purpose ++ purposeSuffix skill_name).take 150
    else purpose
  { normalized with purpose := some purpose }

/-- `SkillNormalizer.normalize` (skill_normalizer.py:74-182).

The model call (`self.llm.generate_json`) is an oracle: `llmResponse` is
its parsed result (`none` covers both a failed call and unparseable JSON;
an empty dict, also falsy at line 119, would equally fail here, as it
fails the schema check).  `now` is the instant `datetime.utcnow()`
returns.  `sources` is the optional caller-supplied source list (default
`None`).  The content truncation of lines 96-98 is applied at the point
of use (the truncated text feeds the model prompt, which the oracle
covers, and the fallback URL extraction). -/
def SkillNormalizer.normalize (llmResponse : Option Skill) (now : UTCTime)
    (content skill_name skill_version : String)
    (sources : Option (List String) := none) : Option Skill :=
  if content = "" then none
  else if llmResponse.isNone then none  -- `if not response_json:`
  else
    let response_json := llmResponse.getD {}
    if ¬ (validate_json_schema response_json).1 then none
    else
      -- full validation of the enriched record (lines 166-172):
      -- `if val_errors: return None`
      if ¬ (validate_skill (normalize_post response_json now
              (if content.length > 50000 then
                 content.take 50000 ++ "\n\n[... content truncated ...]"
               else content)
              skill_name skill_version sources)).2.1.isEmpty then none
      else
        some (normalize_post response_json now
          (if content.length > 50000 then
             content.take 50000 ++ "\n\n[... content truncated ...]"
           else content)
          skill_name skill_version sources)

/-- `json.dumps` of a list of plain strings (used for the `domains`
frontmatter line; the domain tags contain no characters needing escapes). -/
def jsonDumpsStrList (l : List String) : String :=
  "[" ++ String.intercalate ", " (l.map (fun s => "\"" ++ s ++ "\"")) ++ "]"

/-- `str(item)` in an f-string bullet (non-string Python values carry no
representation in the embedding; no claim depends on one). -/
def itemStr : PyItem → String
  | .str s => s
  | .other _ => "<non-string>"

/-- `if "<sect>" in skill and skill["<sect>"]:` followed by one bullet per
item.  A present non-list truthy value would raise at iteration in
Python; no pipeline path or claim reaches that case, it renders nothing
here. -/
def bulletSection (header : String) : Option PyListVal → String
  | some (.list items) =>
      if items.isEmpty then ""
      else header ++ "\n" ++ String.join (items.map (fun it => "- " ++ itemStr it ++ "\n")) ++ "\n"
  | _ => ""

/-- `SkillNormalizer.skill_to_markdown` (skill_normalizer.py:184-276).
The first statement of the method is `skill["sources"] = sources`: the
caller's record dict is mutated.  The embedding returns the rendered
markdown together with the record as it is after the call. -/
def skill_to_markdown (skill : Skill) (sources : List String) : String × Skill :=
  let skill := { skill with sources := some (.list (sources.map PyItem.str)) }
  let md :=
    "---\n" ++
    "name: " ++ skill.name.getD "Unknown" ++ "\n" ++
    "version: " ++ skill.version.getD "unknown" ++ "\n" ++
    "domains: " ++ jsonDumpsStrList (skill.domains.getD ["general"]) ++ "\n" ++
    "lastGenerated: " ++ skill.last_updated.getD "" ++ "\n" ++
    "---\n\n" ++
    "# Skill: " ++ skill.name.getD "Unknown" ++ "\n\n" ++
    (match skill.purpose with
     | some p => "## Purpose\n" ++ p ++ "\n\n"
     | none => "") ++
    (match skill.version with
     | some v =>
         let note := skill.version_notes.getD ""
         "## Version\n" ++ (if note ≠ "" then v ++ ". " ++ note else v) ++ "\n\n"
     | none => "") ++
    bulletSection "## Principles" skill.principles ++
    bulletSection "## Mandatory Rules" skill.rules ++
    bulletSection "## Recommended Patterns" skill.patterns ++
    bulletSection "## Anti-Patterns" skill.anti_patterns ++
    bulletSection "## Security" skill.security ++
    bulletSection "## Performance" skill.performance ++
    bulletSection "## Tooling" skill.tooling ++
    "## Last-Updated\n" ++ skill.last_updated.getD "unknown" ++ "\n\n" ++
    "## Sources\n" ++ String.join (sources.map (fun s => "- " ++ s ++ "\n"))
  (md, skill)

/-! ## LLMClient.call (llm_client.py:26-98)

The HTTP transport is an oracle `outcome : Nat → Except Unit String`
giving, per attempt index, either the response content or a
`requests.exceptions.RequestException`.  `time.sleep` is recorded: the
call returns the list of back-off durations slept, in order. -/

/-- The `for attempt in range(max_retries)` loop; `remaining` counts loop
iterations left, `attempt` is the loop variable.  The `remaining = 0`
case is the `return None` after the loop (llm_client.py:98). -/
def llm_call_go (outcome : Nat → Except Unit String) (max_retries : Nat) :
    Nat → Nat → List Nat → Option String × List Nat
  | 0, _, sleeps => (none, sleeps)
  | remaining + 1, attempt, sleeps =>
      match outcome attempt with
      | .ok content => (some content, sleeps)
      | .error _ =>
          if attempt < max_retries - 1 then
            -- `backoff = 2 ** attempt` (llm_client.py:90), then `time.sleep(backoff)`
            llm_call_go outcome max_retries remaining (attempt + 1) (sleeps ++ [2 ^ attempt])
          else (none, sleeps)

/-- `LLMClient.call`, default `max_retries=3`: result text (or `None`
after exhausting the attempts) paired with the sleeps performed. -/
def llm_call (outcome : Nat → Except Unit String) (max_retries : Nat := 3) :
    Option String × List Nat :=
  llm_call_go outcome max_retries max_retries 0 []

/-! ## Orchestrator (main.py)

`SkillRegenerator.regenerate_skill` drives one skill through the
pipeline.  The collaborators doing I/O enter as a per-skill oracle
`SkillEnv` (descriptor load, HTTP fetch, the normalizer outcome, the file
write and the git commit); `compute_diff` is the real embedded function
applied to the environment's snapshot store.  `self.stats` is only ever
incremented and appended to, so one call's effect is represented as the
`Stats` delta it adds. -/

/-- A raised Python exception: `KeyboardInterrupt` is not a subclass of
`Exception`, so `except Exception` clauses do not catch it. -/
inductive PyExc where
  | interrupt
  | exc (msg : String)
deriving DecidableEq, Repr

/-- One component of the tuple returned by `validate_skill`.  Python
tuple unpacking iterates the tuple, so the tuple is embedded as a
heterogeneous list of these. -/
inductive PyVal where
  | bool (b : Bool)
  | strList (l : List String)
deriving DecidableEq, Repr

/-- The 3-tuple `(len(self.errors) == 0, self.errors, self.warnings)`
that `validate_skill` returns, as the value sequence unpacking sees. -/
def validate_skill_py (s : Skill) : List PyVal :=
  [.bool (validate_skill s).1, .strList (validate_skill s).2.1,
   .strList (validate_skill s).2.2]

/-- Python assignment `a, b = t`: unpacking an iterable into exactly two
targets.  Any other arity raises `ValueError`. -/
def pyUnpack2 (t : List PyVal) : Except PyExc (PyVal × PyVal) :=
  match t with
  | [a, b] => .ok (a, b)
  | _ :: _ :: _ :: _ => .error (.exc "ValueError: too many values to unpack (expected 2)")
  | _ => .error (.exc "ValueError: not enough values to unpack")

/-- Python truthiness of an unpacked tuple component. -/
def PyVal.truthy : PyVal → Bool
  | .bool b => b
  | .strList l => !l.isEmpty

/-- `self.stats` (main.py:39-45).  In the delta reading, a literal below
is the set of increments/appends one call performs. -/
structure Stats where
  processed : Nat := 0
  updated : Nat := 0
  skipped : Nat := 0
  failed : Nat := 0
  errors : List String := []
deriving DecidableEq, Repr

/-- Apply the increments/appends `d` on top of `s`. -/
def Stats.add (s d : Stats) : Stats :=
  { processed := s.processed + d.processed, updated := s.updated + d.updated,
    skipped := s.skipped + d.skipped, failed := s.failed + d.failed,
    errors := s.errors ++ d.errors }

/-- The source descriptor dict as `regenerate_skill` uses it:
`get('version', 'unknown')` and `get('sources', [])`. -/
structure SourceDescriptor where
  version : Option String := none
  sources : List String := []
deriving DecidableEq, Repr

/-- Per-skill oracle: the outcomes of the collaborators
`regenerate_skill` invokes.  An `.error` is the exception that call
raised; descriptor/fetch/normalize calls sit in `try/except Exception`
blocks in the source. -/
structure SkillEnv where
  name : String
  /-- `self.fetcher.load_source_descriptor(skill_name)`; `.ok none` is a
  missing/unparseable (or falsy empty) descriptor. -/
  load_descriptor : Except PyExc (Option SourceDescriptor)
  /-- `self.fetcher.fetch_sources(skill_name)`. -/
  fetch_sources : Except PyExc (Option String)
  /-- The snapshot store `compute_diff` reads. -/
  snapshots : SnapshotStore
  /-- Outcome of `self.normalizer.normalize(diff, skill_name, skill_version)`
  (the Normalizer is embedded and verified separately). -/
  normalize_result : Except PyExc (Option Skill)
  /-- Success of the `SKILLS.md` write inside `save_skill_to_registry`. -/
  write_ok : Bool
  /-- `self.git.commit_skill(skill_name, sources)`. -/
  commit_ok : Bool

/-- `SkillRegenerator.save_skill_to_registry` (main.py:76-108): in
dry-run mode it writes nothing and returns `True`; otherwise it renders
the record (`skill_to_markdown`, which reads `skill_dict.get('sources',
[])`) and reports the write outcome. -/
def save_skill_to_registry (dry_run write_ok : Bool) (skill : Skill) : Bool :=
  if ¬ dry_run then
    let sources :=
      match skill.sources with
      | some (.list l) => l.map itemStr
      | _ => []
    let _markdown := (skill_to_markdown skill sources).1
    write_ok
  else true

/-- `SkillRegenerator.regenerate_skill` (main.py:110-211): the returned
`Except` is the call's outcome (`.ok` = the Python return value, `.error`
= an uncaught exception), paired with the `Stats` delta the call adds to
`self.stats`. -/
def regenerate_skill (env : SkillEnv) (dry_run : Bool)
    (_skill_version : Option String := none) : Except PyExc Bool × Stats :=
  -- every branch's delta starts from `self.stats['processed'] += 1` (main.py:120);
  -- the unused version parameter mirrors main.py:110's optional argument, whose
  -- resolution `skill_version or source_descriptor.get('version', 'unknown')`
  -- only feeds the normalizer call, which the oracle covers
  match env.load_descriptor with
  | .error .interrupt => (.error .interrupt, { processed := 1 })
  | .error (.exc e) =>
      (.ok false, { processed := 1, failed := 1, errors := [env.name ++ ": " ++ e] })
  | .ok none =>  -- `if not source_descriptor:` → skip
      (.ok true, { processed := 1, skipped := 1 })
  | .ok (some _source_descriptor) =>
      match env.fetch_sources with
      | .error .interrupt => (.error .interrupt, { processed := 1 })
      | .error (.exc e) =>
          (.ok false,
           { processed := 1, failed := 1, errors := [env.name ++ " sources: " ++ e] })
      | .ok contentOpt =>
          if contentOpt.getD "" = "" then  -- `if not content:` → skip
            (.ok true, { processed := 1, skipped := 1 })
          else
            match (compute_diff env.snapshots env.name (contentOpt.getD "")).1 with
            | none =>  -- no changes detected → skip
                (.ok true, { processed := 1, skipped := 1 })
            | some _diff =>
                -- `if not isinstance(diff, str)` never fires: compute_diff
                -- only returns a str here
                match env.normalize_result with
                | .error .interrupt => (.error .interrupt, { processed := 1 })
                | .error (.exc e) =>
                    (.ok false,
                     { processed := 1, failed := 1,
                       errors := [env.name ++ " normalize: " ++ e] })
                | .ok none =>  -- `if not normalized:`
                    (.ok false,
                     { processed := 1, failed := 1,
                       errors := [env.name ++ ": Invalid LLM output"] })
                | .ok (some normalized) =>
                    -- main.py:187 `is_valid, errors = self.validator.validate_skill(normalized)`
                    match pyUnpack2 (validate_skill_py normalized) with
                    | .error e => (.error e, { processed := 1 })  -- not inside any try: propagates
                    | .ok (is_valid, errs) =>
                        if ¬ is_valid.truthy then
                          match errs with
                          | .strList (e0 :: _) =>
                              (.ok false,
                               { processed := 1, failed := 1,
                                 errors := [env.name ++ " validation: " ++ e0] })
                          | _ =>  -- `errors[0]` on an empty/non-list value raises
                              (.error (.exc "IndexError: list index out of range"),
                               { processed := 1 })
                        else
                          if ¬ save_skill_to_registry dry_run env.write_ok normalized then
                            (.ok false, { processed := 1, failed := 1 })
                          else if ¬ dry_run ∧ ¬ env.commit_ok then
                            (.ok false, { processed := 1, failed := 1 })
                          else
                            (.ok true, { processed := 1, updated := 1 })

/-- The per-skill loop of `regenerate_skills` (main.py:245-254):
`KeyboardInterrupt` breaks, any other exception is recorded with a
skill-qualified message and the loop continues. -/
def run_loop (dry_run : Bool) : List SkillEnv → Stats → Stats
  | [], s => s
  | env :: rest, s =>
      match (regenerate_skill env dry_run).1 with
      | .ok _ => run_loop dry_run rest (s.add (regenerate_skill env dry_run).2)
      | .error .interrupt => s.add (regenerate_skill env dry_run).2
      | .error (.exc msg) =>
          run_loop dry_run rest
            ((s.add (regenerate_skill env dry_run).2).add
              { failed := 1, errors := [env.name ++ ": " ++ msg] })

/-- `SkillRegenerator.regenerate_skills` (main.py:213-269): exit code and
final statistics.  `config_ok` is `self.config.validate()[0]`; `envs` is
the resolved skill list (explicit names or the registry's keys);
`push_ok` is `self.git.push_changes(branch)`. -/
def regenerate_skills (envs : List SkillEnv) (dry_run config_ok push_ok : Bool) :
    Nat × Stats :=
  if ¬ config_ok then (1, {})
  else if envs.isEmpty then (0, {})  -- 'No skills to regenerate'
  else if ¬ dry_run ∧ (run_loop dry_run envs {}).updated > 0 ∧ ¬ push_ok then
    (1, run_loop dry_run envs {})
  else (if (run_loop dry_run envs {}).failed > 0 then 1 else 0, run_loop dry_run envs {})

/-! ## The spec's notion of a fully-in-bounds record (spec §3/§4.1)

These predicates transcribe the *claims'* hypotheses (the data-model
bounds of the spec), to be compared against what `validate_skill` does. -/

/-- Is the item a string? -/
def isStrItem : PyItem → Bool
  | .str _ => true
  | .other _ => false

/-- Spec bound for one list section: present, a list, item count within
`[mn, mx]`, every item a string. -/
def specValidSection (mn mx : Nat) : Option PyListVal → Bool
  | some (.list items) =>
      decide (mn ≤ items.length) && decide (items.length ≤ mx) && items.all isStrItem
  | _ => false

/-- Spec bound for `sources`: a non-empty list of strings, each an
http(s) URL. -/
def specValidSources : Option PyListVal → Bool
  | some (.list l) =>
      !l.isEmpty && l.all (fun it =>
        match it with
        | .str u => pyStartsWith u "http"
        | .other _ => false)
  | _ => false

/-- Spec bounds for the five metadata fields: present, non-empty,
`name` ≤ 50 chars, `version` ≤ 20 chars, `purpose` 50–150 chars,
`last_updated` matching `YYYY-MM-DDTHH:MM:SSZ`. -/
def specValidMeta (s : Skill) : Bool :=
  match s.name, s.version, s.purpose, s.last_updated with
  | some n, some v, some p, some d =>
      decide (n ≠ "") && decide (n.length ≤ 50) &&
      decide (v ≠ "") && decide (v.length ≤ 20) &&
      decide (50 ≤ p.length) && decide (p.length ≤ 150) &&
      reMatchIso d
  | _, _, _, _ => false

/-- A record satisfying every bound of the data model (spec §3/§4.1). -/
def specValidRecord (s : Skill) : Bool :=
  specValidMeta s && specValidSources s.sources &&
  specValidSection 3 10 s.rules && specValidSection 3 10 s.patterns &&
  specValidSection 2 5 s.anti_patterns && specValidSection 1 5 s.security &&
  specValidSection 1 5 s.performance && specValidSection 1 5 s.tooling

/-! ### Validator helper lemmas -/

theorem reMatchIso_ne_empty {d : String} (h : reMatchIso d = true) : d ≠ "" := by
  intro he
  subst he
  simp [reMatchIso, isoShape] at h

theorem item_errors_nil {nm : String} {items : List PyItem}
    (h : items.all isStrItem = true) : item_errors nm items = [] := by
  induction items with
  | nil => rfl
  | cons it rest ih =>
      simp only [List.all_cons, Bool.and_eq_true] at h
      cases it with
      | str s =>
          show ([] : List String) ++ item_errors nm rest = []
          rw [List.nil_append]
          exact ih h.2
      | other t => simp [isStrItem] at h

theorem section_ok {nm : String} {mn mx : Nat} {v : Option PyListVal}
    (h : specValidSection mn mx v = true) :
    section_errors nm mn mx v = [] ∧ item_errors nm (sectionItems v) = [] := by
  match v with
  | none => simp [specValidSection] at h
  | some (.nonList t) => simp [specValidSection] at h
  | some (.list items) =>
      simp only [specValidSection, Bool.and_eq_true, decide_eq_true_eq] at h
      obtain ⟨⟨h1, h2⟩, h3⟩ := h
      refine ⟨?_, item_errors_nil h3⟩
      simp only [section_errors]
      rw [if_neg (by omega), if_neg (by omega)]

theorem specValid_validate {s : Skill} (h : specValidRecord s = true) :
    (validate_skill s).1 = true ∧ (validate_skill s).2.1 = [] := by
  unfold specValidRecord at h
  simp only [Bool.and_eq_true] at h
  obtain ⟨⟨⟨⟨⟨⟨⟨hmeta, hsrc⟩, hru⟩, hpa⟩, hap⟩, hse⟩, hpe⟩, hto⟩ := h
  have hmetaE : metadata_errors s = [] := by
    unfold specValidMeta at hmeta
    split at hmeta
    case h_2 => exact absurd hmeta (by simp)
    case h_1 n v p d hn hv hp hd =>
      simp only [Bool.and_eq_true, decide_eq_true_eq] at hmeta
      obtain ⟨⟨⟨⟨⟨⟨hn1, hn2⟩, hv1⟩, hv2⟩, hp1⟩, hp2⟩, hd1⟩ := hmeta
      obtain ⟨l, hl, hlne, _⟩ :
          ∃ l, s.sources = some (.list l) ∧ l.isEmpty = false ∧ True := by
        cases hsv : s.sources with
        | none => rw [hsv] at hsrc; simp [specValidSources] at hsrc
        | some lv =>
            cases lv with
            | nonList t => rw [hsv] at hsrc; simp [specValidSources] at hsrc
            | list l =>
                rw [hsv] at hsrc
                simp only [specValidSources, Bool.and_eq_true, Bool.not_eq_true'] at hsrc
                exact ⟨l, rfl, hsrc.1, trivial⟩
      have hpne : p ≠ "" := by
        intro he; rw [he] at hp1; simp at hp1
      unfold metadata_errors
      rw [hn, hv, hp, hd, hl]
      simp only [pyFalsyStrOpt, pyFalsyListOpt, Option.getD_some]
      rw [if_neg (by simp [hn1]), if_neg (by simp [hv1]), if_neg (by simp [hpne]),
          if_neg (by simp [reMatchIso_ne_empty hd1]), if_neg (by simp [hlne]),
          if_neg (by omega), if_neg (by omega),
          if_pos hpne, if_neg (by omega), if_neg (by omega),
          if_neg (by simp [hd1]), if_neg (by simp [hlne])]
      simp
  have hsectE : sections_errors s = [] := by
    unfold sections_errors
    rw [(section_ok hru).1, (section_ok hpa).1, (section_ok hap).1,
        (section_ok hse).1, (section_ok hpe).1, (section_ok hto).1]
    rfl
  have hqualE : quality_errors s = [] := by
    unfold quality_errors
    rw [(section_ok hru).2, (section_ok hpa).2, (section_ok hap).2,
        (section_ok hse).2, (section_ok hpe).2, (section_ok hto).2]
    rfl
  unfold validate_skill
  rw [hmetaE, hsectE, hqualE]
  exact ⟨rfl, rfl⟩

/-! ### Concrete records used by witnesses and counterexamples -/

/-- A record meeting every bound of the data model. -/
def demoValidSkill : Skill :=
  { name := some "pipelines"
    version := some "2.1.0"
    purpose := some "Guidelines for building reliable data pipelines with consistent validation checks"
    last_updated := some "2026-02-06T00:00:00Z"
    sources := some (.list [.str "https://example.org/handbook", .str "https://example.org/changelog"])
    principles := some (.list [.str "Keep transforms deterministic end to end",
                               .str "Treat schemas as versioned contracts",
                               .str "Fail loudly on unexpected input shapes"])
    rules := some (.list [.str "Validate every input row before insertion",
                          .str "Write idempotent migration scripts only",
                          .str "Pin dependency versions in lockfiles"])
    patterns := some (.list [.str "Use typed config loaders at startup",
                             .str "Prefer pure functions for transforms",
                             .str "Batch writes in fixed size chunks"])
    anti_patterns := some (.list [.str "Avoid global mutable connection state",
                                  .str "Avoid string concatenated SQL text"])
    security := some (.list [.str "Escape all user supplied identifiers"])
    performance := some (.list [.str "Reuse pooled connections across tasks"])
    tooling := some (.list [.str "Run the linter in continuous integration"]) }

example : specValidRecord demoValidSkill = true := by decide

/-- The record of the C2 scenario: all bounds met except that `rules`
holds the 5-character item `"Short"` (cardinality still satisfied). -/
def shortItemSkill : Skill :=
  { demoValidSkill with
    rules := some (.list [.str "ok item with enough length",
                          .str "Short",
                          .str "a third rule item with plenty of length"]) }

example : specValidRecord shortItemSkill = true := by decide
example : (validate_skill shortItemSkill).1 = true := by decide

/-- Unfolding step for `item_warnings`. -/
theorem item_warnings_cons (nm : String) (it : PyItem) (rest : List PyItem) :
    item_warnings nm (it :: rest) =
      (match it with
       | .other _ => []
       | .str s =>
           (if s.length < 15 then
              [nm ++ ": item too short (" ++ toString s.length ++ " chars): \"" ++ s ++ "\""]
            else if s.length > 150 then
              [nm ++ ": item too long (" ++ toString s.length ++ " chars): \"" ++ s.take 40 ++ "...\""]
            else []) ++
           (match firstVague s.toLower with
            | some w => [nm ++ ": vague language \"" ++ w ++ "\" in: \"" ++ s.take 40 ++ "...\""]
            | none => [])) ++ item_warnings nm rest := rfl

/-- A too-short string item contributes its warning to the section's
per-item warning list. -/
theorem item_warnings_short_mem {nm : String} {items : List PyItem} {s : String}
    (hm : PyItem.str s ∈ items) (hlen : s.length < 15) :
    (nm ++ ": item too short (" ++ toString s.length ++ " chars): \"" ++ s ++ "\"")
      ∈ item_warnings nm items := by
  induction items with
  | nil => cases hm
  | cons it rest ih =>
      rw [item_warnings_cons]
      rcases List.mem_cons.mp hm with heq | hrest
      · subst heq
        apply List.mem_append_left
        apply List.mem_append_left
        rw [if_pos hlen]
        exact List.mem_singleton.mpr rfl
      · exact List.mem_append_right _ (ih hrest)

/-- **C3** (confirmed).  For every record that satisfies all the bounds of
the data model and validator contract — five metadata fields present and
non-empty, `name` ≤ 50 chars, `version` ≤ 20 chars, `purpose` 50–150
chars, `last_updated` matching `YYYY-MM-DDTHH:MM:SSZ`, `sources` a
non-empty list of http(s) strings, the six required list sections present
within their cardinality bounds, every item a string — `validate_skill`
returns ok with an empty error list. -/
theorem validate_accepts_valid_records (s : Skill) (h : specValidRecord s = true) :
    (validate_skill s).1 = true ∧ (validate_skill s).2.1 = [] :=
  specValid_validate h

/-- Witness for C3: the concrete in-bounds record `demoValidSkill`. -/
theorem validate_accepts_valid_records_witness :
    (validate_skill demoValidSkill).1 = true ∧ (validate_skill demoValidSkill).2.1 = [] :=
  validate_accepts_valid_records demoValidSkill (by decide)

/-- **C2** (counterexample to the claim as stated).  The claim's scenario
record — in bounds everywhere, with `rules` containing the 5-character
item `"Short"` and enough valid items for cardinality — makes
`validate_skill` return ok, not a hard failure. -/
theorem validate_short_item_not_hard_error :
    shortItemSkill.rules = some (.list [.str "ok item with enough length",
                                        .str "Short",
                                        .str "a third rule item with plenty of length"]) ∧
    ("Short".length = 5) ∧
    (validate_skill shortItemSkill).1 = true ∧
    ¬ ((validate_skill shortItemSkill).1 = false) := by decide

/-- **C2** (amended).  A per-item length violation is a warning, not a
hard error: for every record satisfying all other validation bounds whose
`rules` list contains a string item shorter than 15 characters, validate
still returns ok, and the violation is reported in the warning list. -/
theorem validate_short_item_warns (s : Skill) (item : String) (items : List PyItem)
    (hval : specValidRecord s = true)
    (hr : s.rules = some (.list items))
    (hm : PyItem.str item ∈ items)
    (hlen : item.length < 15) :
    (validate_skill s).1 = true ∧
    ("rules: item too short (" ++ toString item.length ++ " chars): \"" ++ item ++ "\"")
      ∈ (validate_skill s).2.2 := by
  refine ⟨(specValid_validate hval).1, ?_⟩
  have hmem : ("rules: item too short (" ++ toString item.length ++ " chars): \"" ++ item ++ "\"")
      ∈ item_warnings "rules" (sectionItems s.rules) := by
    rw [hr]
    exact item_warnings_short_mem hm hlen
  show _ ∈ metadata_warnings s ++ quality_warnings s
  apply List.mem_append_right
  unfold quality_warnings
  apply List.mem_append_left
  apply List.mem_append_left
  apply List.mem_append_left
  apply List.mem_append_left
  apply List.mem_append_left
  apply List.mem_append_left
  exact hmem

/-- Witness for the amended C2 at the claim's own scenario record. -/
theorem validate_short_item_warns_witness :
    (validate_skill shortItemSkill).1 = true ∧
    ("rules: item too short (" ++ toString "Short".length ++ " chars): \"" ++ "Short" ++ "\"")
      ∈ (validate_skill shortItemSkill).2.2 :=
  validate_short_item_warns shortItemSkill "Short"
    [.str "ok item with enough length", .str "Short",
     .str "a third rule item with plenty of length"]
    (by decide) rfl (by decide) (by decide)

/-- **C5** (counterexample to the claim as stated).  With a stored
snapshot equal to the empty string and new content also empty, the prior
snapshot is identical to the new content, yet `compute_diff` returns the
content instead of the `None` "unchanged, skip" signal. -/
theorem compute_diff_identical_empty_not_none :
    (load_snapshot (fun _ => some "") "react").1 = some "" ∧
    (compute_diff (fun _ => some "") "react" "").1 = some "" ∧
    ¬ ((compute_diff (fun _ => some "") "react" "").1 = none) := by decide

/-- **C5** (amended).  `compute_diff` returns `None` exactly when a
*non-empty* prior snapshot is identical to the new content; in every
other case (no snapshot, empty snapshot, or changed content) it returns
the full new content — no partial diff is ever produced. -/
theorem compute_diff_full_or_skip (st : SnapshotStore) (skill content : String) :
    ((compute_diff st skill content).1 = none ↔ st skill = some content ∧ content ≠ "") ∧
    ((compute_diff st skill content).1 ≠ none →
      (compute_diff st skill content).1 = some content) := by
  cases hs : st skill with
  | none =>
      have hred : compute_diff st skill content = (some content, st) := by
        unfold compute_diff load_snapshot
        rw [hs]
      rw [hred]
      simp
  | some prev =>
      have hred : compute_diff st skill content =
          (if prev = "" then (some content, st)
           else if content = prev then (none, st) else (some content, st)) := by
        unfold compute_diff load_snapshot
        rw [hs]
      rw [hred]
      by_cases hp : prev = ""
      · subst hp
        rw [if_pos rfl]
        simp only [Option.some.injEq]
        constructor
        · constructor
          · intro h; cases h
          · rintro ⟨h1, h2⟩
            exact absurd h1.symm h2
        · intro _; trivial
      · rw [if_neg hp]
        by_cases hc : content = prev
        · subst hc
          rw [if_pos rfl]
          simp [hp]
        · rw [if_neg hc]
          simp only [Option.some.injEq]
          constructor
          · constructor
            · intro h; cases h
            · rintro ⟨h1, h2⟩
              exact absurd h1.symm hc
          · intro _; trivial

/-- Witness for the amended C5: no prior snapshot, full content returned. -/
theorem compute_diff_full_or_skip_witness :
    (compute_diff (fun _ => none) "react" "abc").1 = some "abc" :=
  (compute_diff_full_or_skip (fun _ => none) "react" "abc").2 (by decide)

/-- **C6** (confirmed).  `compute_diff` never writes or modifies the
stored snapshot — the snapshot store after the call is the one before
it — and persisting a snapshot happens only through the separate
`save_snapshot` operation, which overwrites exactly the one skill's
entry. -/
theorem compute_diff_preserves_snapshots (st : SnapshotStore) (skill content : String) :
    (compute_diff st skill content).2 = st ∧
    (∀ k, (save_snapshot st skill content).2 k =
      if k = skill then some content else st k) := by
  constructor
  · cases hs : st skill with
    | none =>
        have hred : compute_diff st skill content = (some content, st) := by
          unfold compute_diff load_snapshot
          rw [hs]
        rw [hred]
    | some prev =>
        have hred : compute_diff st skill content =
            (if prev = "" then (some content, st)
             else if content = prev then (none, st) else (some content, st)) := by
          unfold compute_diff load_snapshot
          rw [hs]
        rw [hred]
        by_cases hp : prev = ""
        · rw [if_pos hp]
        · rw [if_neg hp]
          by_cases hc : content = prev
          · rw [if_pos hc]
          · rw [if_neg hc]
  · intro k; rfl

/-- **C10** (confirmed).  `compute_diff` treats an existing but empty
snapshot exactly like a missing one: it returns the new content in full,
even when new content and stored snapshot are both empty; the
"unchanged, skip" result therefore requires a non-empty prior
snapshot. -/
theorem compute_diff_empty_snapshot_like_missing (st : SnapshotStore) (skill content : String) :
    (st skill = some "" → (compute_diff st skill content).1 = some content) ∧
    ((compute_diff st skill content).1 = none → ∃ prev, st skill = some prev ∧ prev ≠ "") := by
  constructor
  · intro h
    have hred : compute_diff st skill content = (some content, st) := by
      unfold compute_diff load_snapshot
      rw [h]
      rfl
    rw [hred]
  · intro h
    cases hs : st skill with
    | none =>
        have hred : compute_diff st skill content = (some content, st) := by
          unfold compute_diff load_snapshot
          rw [hs]
        rw [hred] at h
        cases h
    | some prev =>
        have hred : compute_diff st skill content =
            (if prev = "" then (some content, st)
             else if content = prev then (none, st) else (some content, st)) := by
          unfold compute_diff load_snapshot
          rw [hs]
        rw [hred] at h
        by_cases hp : prev = ""
        · rw [if_pos hp] at h; cases h
        · exact ⟨prev, rfl, hp⟩

/-- Witness for C10: snapshot present but empty, content empty, and the
result is still the full (empty) content rather than the skip signal. -/
theorem compute_diff_empty_snapshot_like_missing_witness :
    (compute_diff (fun _ => some "") "vue" "").1 = some "" :=
  (compute_diff_empty_snapshot_like_missing (fun _ => some "") "vue" "").1 rfl

/-- **C4** (the code at the claim's scenario).  With every attempt
failing at the transport level and the default three attempts, the call
returns `None` after exhausting the retries, but the sleeps performed are
`2 ** attempt` = 1s then 2s — not the 2s, 4s, 8s backoff the claim (and
the comment in the source) describes. -/
theorem llm_call_backoff_values :
    llm_call (fun _ => .error ()) 3 = (none, [1, 2]) ∧ ([1, 2] : List Nat) ≠ [2, 4] := by
  decide

/-! ### C7: the normalizer's metadata post-conditions -/

theorem digitChar_mod_isDigit (n : Nat) : (Nat.digitChar (n % 10)).isDigit = true := by
  have h : n % 10 < 10 := Nat.mod_lt _ (by omega)
  set m := n % 10 with hm
  interval_cases m <;> decide

theorem digAt_isDigit (n d : Nat) : (digAt n d).isDigit = true := by
  unfold digAt
  exact digitChar_mod_isDigit _

/-- The timestamp the normalizer writes always has the exact
`YYYY-MM-DDTHH:MM:SSZ` shape the validator's regex demands. -/
theorem format_utc_iso (t : UTCTime) : reMatchIso (format_utc t) = true := by
  simp [reMatchIso, format_utc, isoShape, digAt_isDigit]

theorem normalize_post_version (rj : Skill) (now : UTCTime) (c n v : String)
    (ss : Option (List String)) : (normalize_post rj now c n v ss).version = some v := rfl

theorem normalize_post_last_updated (rj : Skill) (now : UTCTime) (c n v : String)
    (ss : Option (List String)) :
    (normalize_post rj now c n v ss).last_updated = some (format_utc now) := rfl

theorem normalize_post_sources (rj : Skill) (now : UTCTime) (c n v : String)
    (srcs : List String) (hs : srcs ≠ []) :
    (normalize_post rj now c n v (some srcs)).sources =
      some (.list (srcs.map PyItem.str)) := by
  match srcs with
  | [] => exact absurd rfl hs
  | a :: l => rfl

/-- **C7** (confirmed).  Every record returned (non-none) by `normalize`
— whatever the model response and whatever the `sources` argument,
including the orchestrator's call that passes none (main.py:169) — has
its `version` equal to the caller-supplied `skill_version` and its
`last_updated` stamped with the current UTC time in the exact
`YYYY-MM-DDTHH:MM:SSZ` form (second precision, no fractional seconds);
and whenever the caller supplies a non-empty source list, its `sources`
equal exactly that list, regardless of what the model emitted for those
fields. -/
theorem normalize_sets_metadata (llmResponse : Option Skill) (r : Skill) (now : UTCTime)
    (content skill_name skill_version : String) (sources : Option (List String))
    (_hwf : now.wf)
    (h : SkillNormalizer.normalize llmResponse now content skill_name skill_version
          sources = some r) :
    r.version = some skill_version ∧
    r.last_updated = some (format_utc now) ∧
    reMatchIso (format_utc now) = true ∧
    (∀ srcs, sources = some srcs → srcs ≠ [] →
      r.sources = some (.list (srcs.map PyItem.str))) := by
  unfold SkillNormalizer.normalize at h
  by_cases hc : content = ""
  · rw [if_pos hc] at h; cases h
  · cases llmResponse with
    | none =>
        rw [if_neg hc, if_pos (by decide : (none : Option Skill).isNone = true)] at h
        cases h
    | some resp =>
        rw [if_neg hc, if_neg (by simp : ¬((some resp).isNone = true))] at h
        simp only [Option.getD_some] at h
        by_cases hschema : (validate_json_schema resp).1
        · rw [if_neg (not_not_intro hschema)] at h
          by_cases hval :
              (validate_skill (normalize_post resp now
                (if content.length > 50000 then
                   content.take 50000 ++ "\n\n[... content truncated ...]"
                 else content)
                skill_name skill_version sources)).2.1.isEmpty
          · rw [if_neg (not_not_intro hval)] at h
            obtain rfl := Option.some.inj h
            refine ⟨normalize_post_version .., normalize_post_last_updated ..,
                    format_utc_iso now, ?_⟩
            intro srcs hs hne
            subst hs
            exact normalize_post_sources _ _ _ _ _ _ hne
          · rw [if_pos hval] at h; cases h
        · rw [if_pos hschema] at h; cases h

/-- The concrete instant used by the C7 witness. -/
def demoNow : UTCTime := ⟨2026, 2, 6, 12, 30, 45⟩

/-- The record the C7 witness run with caller-supplied sources produces. -/
def demoNormalized : Skill :=
  { demoValidSkill with
    version := some "19.0",
    last_updated := some "2026-02-06T12:30:45Z",
    sources := some (.list [.str "https://react.dev"]) }

/-- Content for the no-sources C7 witness run: the fallback extraction
finds the one URL token in it. -/
def demoContentWithUrl : String := "see https://react.dev/reference for details"

/-- The record the C7 witness run without caller-supplied sources
produces: `sources` comes from the URL extraction. -/
def demoNormalizedFallback : Skill :=
  { demoValidSkill with
    version := some "19.0",
    last_updated := some "2026-02-06T12:30:45Z",
    sources := some (.list [.str "https://react.dev/reference"]) }

/-- Witness for C7, both call shapes: the orchestrator's own
(`sources=None`, main.py:169, so the fallback extraction fills
`sources`), where `version`/`last_updated` are still overwritten, and a
call with a supplied non-empty list, where `sources` becomes exactly
that list. -/
theorem normalize_sets_metadata_witness :
    (SkillNormalizer.normalize (some demoValidSkill) demoNow demoContentWithUrl "react"
        "19.0" none = some demoNormalizedFallback ∧
     demoNormalizedFallback.version = some "19.0" ∧
     demoNormalizedFallback.last_updated = some (format_utc demoNow) ∧
     reMatchIso (format_utc demoNow) = true) ∧
    (SkillNormalizer.normalize (some demoValidSkill) demoNow "docs text" "react" "19.0"
        (some ["https://react.dev"]) = some demoNormalized ∧
     demoNormalized.version = some "19.0" ∧
     demoNormalized.last_updated = some (format_utc demoNow) ∧
     demoNormalized.sources = some (.list (["https://react.dev"].map PyItem.str))) := by
  have h1 : SkillNormalizer.normalize (some demoValidSkill) demoNow demoContentWithUrl
      "react" "19.0" none = some demoNormalizedFallback := by decide
  have h2 : SkillNormalizer.normalize (some demoValidSkill) demoNow "docs text" "react"
      "19.0" (some ["https://react.dev"]) = some demoNormalized := by decide
  obtain ⟨v1, l1, i1, _⟩ := normalize_sets_metadata (some demoValidSkill)
    demoNormalizedFallback demoNow demoContentWithUrl "react" "19.0" none (by decide) h1
  obtain ⟨v2, l2, _, s2⟩ := normalize_sets_metadata (some demoValidSkill)
    demoNormalized demoNow "docs text" "react" "19.0" (some ["https://react.dev"])
    (by decide) h2
  exact ⟨⟨h1, v1, l1, i1⟩, h2, v2, l2, s2 ["https://react.dev"] rfl (by decide)⟩

/-! ### C8: the renderer and the record it is given -/

/-- **C8** (counterexample to the claim as stated).  Rendering is not
mutation-free: `skill_to_markdown` reassigns the record's `sources` key,
so rendering `demoValidSkill` with a different source list changes the
record. -/
theorem skill_to_markdown_mutates_record :
    demoValidSkill.sources = some (.list [.str "https://example.org/handbook",
                                          .str "https://example.org/changelog"]) ∧
    (skill_to_markdown demoValidSkill ["https://new.example"]).2.sources =
      some (.list [.str "https://new.example"]) ∧
    ¬ ((skill_to_markdown demoValidSkill ["https://new.example"]).2 = demoValidSkill) := by
  decide

/-- **C8** (amended).  `skill_to_markdown` first sets the record's
`sources` field to the caller-supplied list (its very first statement),
then renders; every other field is untouched, so the record is unchanged
exactly when the passed list already equals its `sources` — which is what
the orchestrator passes (`skill_dict.get('sources', [])`). -/
theorem skill_to_markdown_sets_sources (sk : Skill) (srcs : List String) :
    (skill_to_markdown sk srcs).2 = { sk with sources := some (.list (srcs.map PyItem.str)) } ∧
    (sk.sources = some (.list (srcs.map PyItem.str)) → (skill_to_markdown sk srcs).2 = sk) := by
  refine ⟨rfl, ?_⟩
  intro h
  show { sk with sources := some (.list (srcs.map PyItem.str)) } = sk
  cases sk with
  | mk nm vr pu lu so pr ru pa ap se pe tl dm vn =>
      have hso : so = some (.list (srcs.map PyItem.str)) := h
      rw [hso]

/-- Witness for the amended C8: rendering with the record's own sources
leaves the record unchanged. -/
theorem skill_to_markdown_sets_sources_witness :
    (skill_to_markdown demoValidSkill
      ["https://example.org/handbook", "https://example.org/changelog"]).2 = demoValidSkill :=
  (skill_to_markdown_sets_sources demoValidSkill
    ["https://example.org/handbook", "https://example.org/changelog"]).2 (by decide)

/-! ### C1 and C9: the orchestrator -/

deriving instance DecidableEq for Except

/-- `validate_skill` returns a 3-tuple, so the 2-target unpacking at
main.py:187 always raises. -/
theorem pyUnpack2_validate (s : Skill) :
    pyUnpack2 (validate_skill_py s) =
      .error (.exc "ValueError: too many values to unpack (expected 2)") := rfl

/-- Every branch of `regenerate_skill` increments `processed` exactly
once, and none ever reaches the `updated` increment: the success branch
sits behind the 2-target unpacking of `validate_skill`'s 3-tuple, which
always raises. -/
theorem regenerate_skill_delta (env : SkillEnv) (dry : Bool) (sv : Option String) :
    (regenerate_skill env dry sv).2.processed = 1 ∧
    (regenerate_skill env dry sv).2.updated = 0 := by
  unfold regenerate_skill
  repeat' split
  all_goals try exact ⟨rfl, rfl⟩
  all_goals simp_all [pyUnpack2_validate]

/-- One unfolding step of the orchestrator loop. -/
theorem run_loop_cons (dry : Bool) (env : SkillEnv) (rest : List SkillEnv) (s : Stats) :
    run_loop dry (env :: rest) s =
      match (regenerate_skill env dry).1 with
      | .ok _ => run_loop dry rest (s.add (regenerate_skill env dry).2)
      | .error .interrupt => s.add (regenerate_skill env dry).2
      | .error (.exc msg) =>
          run_loop dry rest
            ((s.add (regenerate_skill env dry).2).add
              { failed := 1, errors := [env.name ++ ": " ++ msg] }) := rfl

/-- Without an interrupt, the loop reaches every skill: `processed`
grows by exactly the number of environments. -/
theorem run_loop_processed (dry : Bool) (envs : List SkillEnv) :
    ∀ s : Stats, (∀ e ∈ envs, (regenerate_skill e dry).1 ≠ .error .interrupt) →
      (run_loop dry envs s).processed = s.processed + envs.length := by
  induction envs with
  | nil => intro s _; simp [run_loop]
  | cons e rest ih =>
      intro s hni
      have hne : (regenerate_skill e dry).1 ≠ .error .interrupt :=
        hni e (List.mem_cons_self e rest)
      have hrest : ∀ x ∈ rest, (regenerate_skill x dry).1 ≠ .error .interrupt :=
        fun x hx => hni x (List.mem_cons_of_mem _ hx)
      have hd : (regenerate_skill e dry).2.processed = 1 :=
        (regenerate_skill_delta e dry none).1
      cases hres : (regenerate_skill e dry).1 with
      | ok b =>
          simp only [run_loop_cons, hres]
          rw [ih _ hrest]
          simp only [Stats.add, hd, List.length_cons]
          omega
      | error ex =>
          cases ex with
          | interrupt => exact absurd hres hne
          | exc msg =>
              simp only [run_loop_cons, hres]
              rw [ih _ hrest]
              simp only [Stats.add, hd, List.length_cons]
              omega

/-- The loop only ever appends to the error list. -/
theorem run_loop_errors_mono (dry : Bool) (envs : List SkillEnv) :
    ∀ (s : Stats) (m : String), m ∈ s.errors → m ∈ (run_loop dry envs s).errors := by
  induction envs with
  | nil => intro s m hm; simpa [run_loop] using hm
  | cons e rest ih =>
      intro s m hm
      have hmadd : ∀ d : Stats, m ∈ (s.add d).errors := by
        intro d
        simp only [Stats.add]
        exact List.mem_append_left _ hm
      cases hres : (regenerate_skill e dry).1 with
      | ok b =>
          simp only [run_loop_cons, hres]
          exact ih _ _ (hmadd _)
      | error ex =>
          cases ex with
          | interrupt =>
              simp only [run_loop_cons, hres]
              exact hmadd _
          | exc msg =>
              simp only [run_loop_cons, hres]
              exact ih _ _ (by
                simp only [Stats.add]
                exact List.mem_append_left _ (hmadd _))

/-- A skill whose processing raises a (non-interrupt) exception gets a
skill-qualified entry in the error list, and the loop carries on. -/
theorem run_loop_records_exc (dry : Bool) (e : SkillEnv) (msg : String)
    (hmsg : (regenerate_skill e dry).1 = .error (.exc msg)) :
    ∀ (envs : List SkillEnv) (s : Stats),
      (∀ x ∈ envs, (regenerate_skill x dry).1 ≠ .error .interrupt) →
      e ∈ envs → (e.name ++ ": " ++ msg) ∈ (run_loop dry envs s).errors := by
  intro envs
  induction envs with
  | nil => intro s _ he; cases he
  | cons x rest ih =>
      intro s hni he
      have hrest : ∀ y ∈ rest, (regenerate_skill y dry).1 ≠ .error .interrupt :=
        fun y hy => hni y (List.mem_cons_of_mem _ hy)
      rcases List.mem_cons.mp he with rfl | hmem
      · simp only [run_loop_cons, hmsg]
        apply run_loop_errors_mono
        simp only [Stats.add]
        exact List.mem_append_right _ (List.mem_singleton.mpr rfl)
      · cases hres : (regenerate_skill x dry).1 with
        | ok b =>
            simp only [run_loop_cons, hres]
            exact ih _ hrest hmem
        | error ex =>
            cases ex with
            | interrupt => exact absurd hres (hni x (List.mem_cons_self x rest))
            | exc m2 =>
                simp only [run_loop_cons, hres]
                exact ih _ hrest hmem

/-- A failed skill forces a non-zero exit code, whatever else happened. -/
theorem regenerate_skills_failed_exit (envs : List SkillEnv) (dry config_ok push_ok : Bool)
    (h : (run_loop dry envs {}).failed > 0) :
    (regenerate_skills envs dry config_ok push_ok).1 = 1 := by
  unfold regenerate_skills
  by_cases hcfg : config_ok = true
  · rw [if_neg (not_not_intro hcfg)]
    cases envs with
    | nil => simp [run_loop] at h
    | cons x rest =>
        rw [if_neg (by simp)]
        by_cases hpush : (¬ dry = true ∧ (run_loop dry (x :: rest) {}).updated > 0 ∧ ¬ push_ok = true)
        · rw [if_pos hpush]
        · rw [if_neg hpush, if_pos h]
  · rw [if_pos hcfg]

/-- **C9** (confirmed).  During a run, every exception raised while
processing one skill is caught at the orchestrator loop and recorded as
a skill-qualified error string, and processing continues through the
whole list (absent a user interrupt, every skill is processed); and a
`failed` counter greater than zero at the end forces a failure exit
code, no matter how many skills succeeded. -/
theorem orchestrator_error_policy (envs : List SkillEnv) (dry config_ok push_ok : Bool)
    (hni : ∀ e ∈ envs, (regenerate_skill e dry).1 ≠ .error .interrupt) :
    (run_loop dry envs {}).processed = envs.length ∧
    (∀ e ∈ envs, ∀ msg, (regenerate_skill e dry).1 = .error (.exc msg) →
      (e.name ++ ": " ++ msg) ∈ (run_loop dry envs {}).errors) ∧
    ((run_loop dry envs {}).failed > 0 →
      (regenerate_skills envs dry config_ok push_ok).1 = 1) := by
  refine ⟨?_, ?_, regenerate_skills_failed_exit envs dry config_ok push_ok⟩
  · simpa using run_loop_processed dry envs {} hni
  · intro e he msg hmsg
    exact run_loop_records_exc dry e msg hmsg envs {} hni he

/-- The source descriptor of the concrete C1/C9 runs. -/
def demoDescriptor : SourceDescriptor :=
  { version := some "19.0", sources := ["https://react.dev"] }

/-- Combined fetched content of the concrete C1/C9 runs. -/
def demoContent : String :=
  "## Source: https://react.dev\n\nReact documentation text, long enough for the length gate."

/-- A per-skill environment in which every collaborator succeeds: the
descriptor loads, the fetch returns non-empty content, no snapshot
exists (so the diff is the full content), the normalizer returns a
fully valid record, and write/commit succeed. -/
def goodEnv : SkillEnv :=
  { name := "react"
    load_descriptor := .ok (some demoDescriptor)
    fetch_sources := .ok (some demoContent)
    snapshots := fun _ => none
    normalize_result := .ok (some demoValidSkill)
    write_ok := true
    commit_ok := true }

/-- An environment whose skill has no source descriptor (skip path). -/
def skipEnv : SkillEnv :=
  { name := "vue"
    load_descriptor := .ok none
    fetch_sources := .ok none
    snapshots := fun _ => none
    normalize_result := .ok none
    write_ok := true
    commit_ok := true }

/-- **C1** (the code at the claim's scenario).  In an environment where
every one of the claim's hypotheses holds — descriptor loads, fetch
returns non-empty content, `compute_diff` returns the content, the
normalizer returns a record that passes validation, and dry-run makes
persist and commit succeed — `regenerate_skill` does *not* count the
skill as updated: the two-target unpacking of `validate_skill`'s
3-tuple at main.py:187 raises `ValueError`, the outer loop records the
skill as failed, and no environment whatsoever can ever increment the
`updated` counter. -/
theorem regenerate_skill_goodpath_not_updated :
    goodEnv.load_descriptor = .ok (some demoDescriptor) ∧
    goodEnv.fetch_sources = .ok (some demoContent) ∧ ¬ (demoContent = "") ∧
    (compute_diff goodEnv.snapshots goodEnv.name demoContent).1 = some demoContent ∧
    goodEnv.normalize_result = .ok (some demoValidSkill) ∧
    (validate_skill demoValidSkill).1 = true ∧
    regenerate_skill goodEnv true =
      (.error (.exc "ValueError: too many values to unpack (expected 2)"),
       { processed := 1 }) ∧
    run_loop true [goodEnv] {} =
      { processed := 1, updated := 0, skipped := 0, failed := 1,
        errors := ["react: ValueError: too many values to unpack (expected 2)"] } ∧
    (∀ (env : SkillEnv) (dry : Bool) (sv : Option String),
      (regenerate_skill env dry sv).2.updated = 0) := by
  refine ⟨rfl, rfl, by decide, by decide, rfl, by decide, by decide, by decide, ?_⟩
  intro env dry sv
  exact (regenerate_skill_delta env dry sv).2

/-- Witness for C9: a run over a crashing skill and a skipped skill —
both are processed, the crash is recorded under the skill's name, and
the run exits non-zero. -/
theorem orchestrator_error_policy_witness :
    (run_loop true [goodEnv, skipEnv] {}).processed = 2 ∧
    (∀ e ∈ [goodEnv, skipEnv], ∀ msg,
      (regenerate_skill e true).1 = .error (.exc msg) →
      (e.name ++ ": " ++ msg) ∈ (run_loop true [goodEnv, skipEnv] {}).errors) ∧
    ((run_loop true [goodEnv, skipEnv] {}).failed > 0 →
      (regenerate_skills [goodEnv, skipEnv] true true true).1 = 1) := by
  have h := orchestrator_error_policy [goodEnv, skipEnv] true true true (by decide)
  simpa using h
